import Mathlib

/-!
Shallow embedding of the Visa_InfoBot conversation logic.

Sources embedded:
* `src/streamlit_app.py` — the web app's helpers (`canon`, `pretty`,
  `is_farewell`, `is_greeting`, `is_thanks`, `match_country`,
  `resolve_visa_type`) and its typed-input message handler
  (the three-state conversation machine), modelled as the pure function
  `handle : Config → Session → String → String × Session` over an abstract
  configuration (the `Conversation` JSON document is data, not code, and is
  not part of the repository snapshot; theorems quantify over it).
* `src/interface.py` — the CLI wrapper `ChatCLI.respond`, modelled as
  `respond : CLIConfig → BotState → String → Option (String × BotState)`
  (`none` models the one uncaught `KeyError` path, see below).

Modelling conventions:
* Python strings are Lean `String`s; character-level operations work on
  `String.data`.  Case folding and the `\w`, `\s` character classes are
  modelled at ASCII scope (`Char.toLower`, `Char.isAlphanum`,
  `Char.isWhitespace`), which covers every literal pattern in the source.
* Regex whole-word search (`\b pat \b`) is modelled by `containsWord`:
  an occurrence of the pattern at a position whose two ends are word
  boundaries (word-character parity changes, text ends count as non-word).
* Python `dict`s become association lists looked up with `List.lookup`
  (first binding wins; the source's JSON data is assumed to have distinct
  keys, which is the spec's own uniqueness invariant).
* UI-only state (`history`, `last_downloadable`, `_focus_composer`,
  spinner, chips rendering) is presentation and is not part of the session
  the claims are about; the analytics counters are kept for fidelity.
-/

/-- Python `\w` at ASCII scope: letters, digits, underscore. -/
def isWordChar (c : Char) : Bool :=
  c.isAlphanum || c = '_'

/-- Characters of `s`, lower-cased (Python `str.lower`, ASCII scope). -/
def lowerData (s : String) : List Char :=
  s.data.map Char.toLower

/-- Python `str.lower`. -/
def pyLower (s : String) : String :=
  ⟨lowerData s⟩

/-- Python `str.strip`: drop leading and trailing whitespace. -/
def pyStrip (s : String) : String :=
  ⟨((s.data.dropWhile Char.isWhitespace).reverse.dropWhile Char.isWhitespace).reverse⟩

/-- The separator class `[\s_-]` removed by `canon`. -/
def isSepChar (c : Char) : Bool :=
  c.isWhitespace || c = '_' || c = '-'

/-- streamlit_app.py lines 23-25: lower-case, then remove every
whitespace, underscore and hyphen (the leading `strip()` is subsumed
because all whitespace is removed anyway). -/
def canon (s : String) : String :=
  ⟨(lowerData (pyStrip s)).filter (fun c => !isSepChar c)⟩

/-- Word-character test of an optional character; the ends of the text
count as non-word. -/
def optWord : Option Char → Bool
  | some c => isWordChar c
  | none => false

/-- A regex `\b` boundary between two adjacent positions: the
word-character parity changes. -/
def wordBoundary (a b : Option Char) : Bool :=
  optWord a != optWord b

/-- The pattern `p` (already lower-cased) matches at the head of `s`
with `\b` boundaries on both sides; `prev` is the character just before
this position (`none` at the start of the text). -/
def wordMatchFrom (p s : List Char) (prev : Option Char) : Bool :=
  p.isPrefixOf s && wordBoundary prev p.head? && wordBoundary p.getLast? ((s.drop p.length).head?)

/-- Does `f` accept some suffix position of the text?  `f` receives the
suffix and the character preceding it. -/
def scanFrom (f : List Char → Option Char → Bool) : List Char → Option Char → Bool
  | [], prev => f [] prev
  | c :: rest, prev => f (c :: rest) prev || scanFrom f rest (some c)

/-- Case-insensitive whole-word occurrence of `pat` in `text`:
the model of `re.search(rf"\b{pat}\b", text, re.IGNORECASE)`. -/
def containsWord (pat text : String) : Bool :=
  scanFrom (wordMatchFrom (lowerData pat)) (lowerData text) none

/-- streamlit_app.py lines 34-35: `\b(bye|goodbye|see you|exit|quit)\b`. -/
def is_farewell (t : String) : Bool :=
  containsWord "bye" t || containsWord "goodbye" t || containsWord "see you" t ||
    containsWord "exit" t || containsWord "quit" t

/-- streamlit_app.py lines 37-38: `\b(hi|hello|hey|good day)\b`. -/
def is_greeting (t : String) : Bool :=
  containsWord "hi" t || containsWord "hello" t || containsWord "hey" t ||
    containsWord "good day" t

/-- One position's test for the `thank\s*you` alternative: the word
`thank`, then any run of whitespace, then `you`, with `\b` at both ends. -/
def thankYouFrom (s : List Char) (prev : Option Char) : Bool :=
  List.isPrefixOf ("thank".data) s && wordBoundary prev (some 't') &&
    (let rest := (s.drop 5).dropWhile Char.isWhitespace
     List.isPrefixOf ("you".data) rest && wordBoundary (some 'u') ((rest.drop 3).head?))

/-- streamlit_app.py lines 40-41: `\b(thanks?|thank\s*you)\b`. -/
def is_thanks (t : String) : Bool :=
  containsWord "thank" t || containsWord "thanks" t ||
    scanFrom thankYouFrom (lowerData t) none

/-- interface.py line 78: `\b(yes|yep|yeah|sure|of course)\b`. -/
def is_affirmative (t : String) : Bool :=
  containsWord "yes" t || containsWord "yep" t || containsWord "yeah" t ||
    containsWord "sure" t || containsWord "of course" t

/-- streamlit_app.py line 45: `re.sub(r"[^\w\s]", " ", text.lower())` —
every character that is neither a word character nor whitespace becomes a
space. -/
def stripPunct (s : List Char) : List Char :=
  s.map (fun c => if isWordChar c || c.isWhitespace then c else ' ')

/-- Whole-word occurrence of the (already lower-case) country name `p`
inside the punctuation-stripped text. -/
def containsWordIn (p text : List Char) : Bool :=
  scanFrom (wordMatchFrom p) text none

/-- streamlit_app.py lines 43-49: find the first country of the mapping
whose name occurs as a whole word in the punctuation-stripped, lower-cased
text. -/
def match_country (text : String) (countries : List (String × Bool)) : Option String :=
  let low := stripPunct (lowerData text)
  (countries.find? (fun p => containsWordIn p.1.data low)).map (fun p => p.1)

/-- Python `str.title` (ASCII scope): an alphabetic character is
upper-cased after a non-alphabetic one and lower-cased otherwise. -/
def titleData : List Char → Bool → List Char
  | [], _ => []
  | c :: rest, prevCased =>
    (if c.isAlpha then (if prevCased then c.toLower else c.toUpper) else c) ::
      titleData rest c.isAlpha

/-- Python `str.title`. -/
def pyTitle (s : String) : String :=
  ⟨titleData s.data false⟩

/-- streamlit_app.py lines 27-32. -/
def pretty (label : String) : String :=
  if canon label = "visaonarrival" then "Visa on Arrival"
  else
    let cleaned := pyStrip ⟨label.data.map (fun c => if c = '_' || c = '-' then ' ' else c)⟩
    if cleaned.data.any Char.isUpper then cleaned else pyTitle cleaned

/-- A visa-type entry of the configuration document: the `response`
field, `none` when the field is absent.  (The source stores the raw JSON
object; the only field it ever reads is `response`.  Python treats an
empty `response` string as missing — `if details.get("response")` — which
`truthyStr` models.  An entry that is present is modelled as truthy,
matching non-empty JSON objects.) -/
structure VEntry where
  response : Option String
deriving DecidableEq, Repr

/-- Python truthiness of an optional string: present and non-empty. -/
def truthyStr : Option String → Bool
  | some s => !s.isEmpty
  | none => false

/-- Python substring containment `p in s` on character lists. -/
def isInfixL (p : List Char) : List Char → Bool
  | [] => p.isEmpty
  | c :: rest => p.isPrefixOf (c :: rest) || isInfixL p rest

/-- The predicate of the source's first fuzzy pass (streamlit_app.py
line 60): `vt.startswith(k) or k in vt`. -/
def keyHitPred (vt k : String) : Bool :=
  k.data.isPrefixOf vt.data || isInfixL k.data vt.data

/-- First key of the mapping accepted by `keyHitPred` (the `for k in
visa_types.keys()` loop with early return). -/
def findKeyHit (vt : String) : List (String × VEntry) → Option String
  | [] => none
  | (k, _) :: rest => if keyHitPred vt k then some k else findKeyHit vt rest

/-- The predicate of the source's display-label pass (streamlit_app.py
line 64): `vt == dkey or vt.startswith(dkey) or dkey in vt`. -/
def dispHitPred (vt dk : String) : Bool :=
  vt == dk || dk.data.isPrefixOf vt.data || isInfixL dk.data vt.data

/-- First display label whose canonical form is accepted by
`dispHitPred` (the `for disp in display_options` loop). -/
def findDispHit (vt : String) : List String → Option String
  | [] => none
  | d :: rest => if dispHitPred vt (canon d) then some (canon d) else findDispHit vt rest

/-- streamlit_app.py lines 51-66. -/
def resolve_visa_type (user_text : String) (visa_types : List (String × VEntry))
    (display_options : List String) : Option String :=
  let vt := canon user_text
  if (visa_types.lookup vt).isSome then some vt
  else
    match findKeyHit vt visa_types with
    | some k => some k
    | none => findDispHit vt display_options

/-- The resolver as the SPEC's words describe it, for comparison with
`resolve_visa_type` (claim C3).  Step 2 per the spec: "the canonicalized
input starts-with or is contained-in a known key", i.e. the key is a
prefix of the input, or the input is an infix of the KEY. -/
def claimKeyPred (vt k : String) : Bool :=
  k.data.isPrefixOf vt.data || isInfixL vt.data k.data

/-- First key accepted by the spec's step-2 predicate. -/
def findKeyHitClaim (vt : String) : List (String × VEntry) → Option String
  | [] => none
  | (k, _) :: rest => if claimKeyPred vt k then some k else findKeyHitClaim vt rest

/-- First display label accepted by the spec's step-3 predicate
(step 2 repeated against canonicalized display labels). -/
def findDispHitClaim (vt : String) : List String → Option String
  | [] => none
  | d :: rest => if claimKeyPred vt (canon d) then some (canon d) else findDispHitClaim vt rest

/-- The resolution ladder exactly as the spec states it (claim C3):
exact key, then spec-step-2 over keys, then over display labels, else
no match. -/
def resolve_visa_type_spec (user_text : String) (visa_types : List (String × VEntry))
    (display_options : List String) : Option String :=
  let vt := canon user_text
  if (visa_types.lookup vt).isSome then some vt
  else
    match findKeyHitClaim vt visa_types with
    | some k => some k
    | none => findDispHitClaim vt display_options

/-- The three conversation states of the machine. -/
inductive BotState where
  | ASK_COUNTRY
  | ASK_VISA_TYPE
  | END
deriving DecidableEq, Repr

/-- The `prompts` section of the configuration document as the web app
reads it: `welcome`, `ask_country` and `goodbye` are accessed with plain
indexing (required), the others through `.get` with a default
(optional, `none` = absent). -/
structure Prompts where
  welcome : String
  ask_country : String
  goodbye : String
  ask_visa_type : Option String
  fallback_country : Option String
  fallback_visa_type : Option String
  visa_free_msg : Option String
deriving DecidableEq, Repr

/-- The web app's loaded configuration (streamlit_app.py lines 68-89):
`country_map` keys are already `strip().lower()`-ed names, `visa_types`
keys are already `canon`-ed, `display_options` is the de-duplicated
pretty options list without "General". -/
structure Config where
  prompts : Prompts
  country_map : List (String × Bool)
  visa_types : List (String × VEntry)
  display_options : List String
deriving DecidableEq, Repr

/-- streamlit_app.py line 89: `", ".join(display_options)`. -/
def optionsStrDisplay (cfg : Config) : String :=
  String.intercalate ", " cfg.display_options

/-- The web app's session, restricted to the fields the conversation
logic reads or writes (transcript and UI focus flags are presentation). -/
structure Session where
  state : BotState
  current_country : Option String
  countries_asked : List String
  visa_required_count : Nat
  visa_free_count : Nat
deriving DecidableEq, Repr

/-- streamlit_app.py lines 114-121 (`reset_chat`), restricted to the
modelled fields. -/
def reset_chat : Session :=
  { state := BotState.ASK_COUNTRY
    current_country := none
    countries_asked := []
    visa_required_count := 0
    visa_free_count := 0 }

/-- Python `str.replace(pat, rep)`: replace every non-overlapping
occurrence, scanning left to right.  (The `!pat.isEmpty` guard only
keeps the recursion well-founded; every caller passes a non-empty
pattern.) -/
def replaceAllL (pat rep : List Char) : List Char → List Char
  | [] => []
  | c :: rest =>
    if pat.isPrefixOf (c :: rest) && !pat.isEmpty then
      rep ++ replaceAllL pat rep (rest.drop (pat.length - 1))
    else
      c :: replaceAllL pat rep rest
termination_by s => s.length
decreasing_by
  all_goals simp [List.length_drop]
  omega

/-- The tail `\s*\([^()]*\)\s*$` of the duplicate-options cleanup regex
(streamlit_app.py line 289), tested on what follows a `)`. -/
def dedupTailMatch (s : List Char) : Bool :=
  match s.dropWhile Char.isWhitespace with
  | '(' :: rest =>
    (match rest.drop ((rest.takeWhile (fun c => c ≠ '(' && c ≠ ')')).length) with
     | ')' :: tail => (tail.dropWhile Char.isWhitespace).isEmpty
     | _ => false)
  | _ => false

/-- Leftmost match of `\)\s*\([^()]*\)\s*$` replaced by `)`
(streamlit_app.py line 289; the pattern is anchored at the end of the
string, so `re.sub` performs at most one replacement). -/
def dedupAux : List Char → Option (List Char)
  | [] => none
  | ')' :: rest =>
    if dedupTailMatch rest then some [')']
    else (dedupAux rest).map (fun l => ')' :: l)
  | c :: rest => (dedupAux rest).map (fun l => c :: l)

/-- streamlit_app.py line 289: drop an accidental duplicate options list. -/
def dedupAsk (s : String) : String :=
  match dedupAux s.data with
  | some l => ⟨l⟩
  | none => s

/-- streamlit_app.py lines 281-290: the ask-visa-type reply for a
(title-cased) country display name.  `str.format` is modelled as literal
replacement of the `{visa_type_options}` field (the template is assumed
to contain no other replacement field — any other field would raise at
run time and no shipped prompt has one). -/
def askVisaReply (cfg : Config) (disp : String) : String :=
  let opts := optionsStrDisplay cfg
  let tmpl := cfg.prompts.ask_visa_type.getD
    "Great! You need a visa to visit Nigeria. Which visa type are you interested in?"
  let ask :=
    if isInfixL ("{visa_type_options}".data) tmpl.data then
      (⟨replaceAllL ("{visa_type_options}".data) opts.data tmpl.data⟩ : String)
    else tmpl ++ " (" ++ opts ++ ")"
  "For " ++ disp ++ ", " ++ dedupAsk ask

/-- streamlit_app.py lines 272-277: the visa-free reply. -/
def visaFreeReply (cfg : Config) (disp : String) : String :=
  "For " ++ disp ++ ", " ++
    cfg.prompts.visa_free_msg.getD "Excellent—you do not need a visa to visit Nigeria."

/-- streamlit_app.py lines 295-301. -/
def fallbackCountryReply (cfg : Config) : String :=
  cfg.prompts.fallback_country.getD
    "Sorry, I didn't recognize that country. Please tell me which country you're from."

/-- streamlit_app.py lines 311-315: the same-country nudge. -/
def nudgeReply (cfg : Config) (current_disp : String) : String :=
  "We're already discussing **" ++ current_disp ++
    "**. Please choose a visa type (" ++ optionsStrDisplay cfg ++
    ") or ask about another country."

/-- streamlit_app.py line 252: the fixed thanks acknowledgement. -/
def thanksReply : String :=
  "You're welcome! Have an amazing time in Nigeria!"

/-- streamlit_app.py lines 361-367. -/
def fallbackVisaReply (cfg : Config) (text : String) : String :=
  cfg.prompts.fallback_visa_type.getD
    ("Sorry, I don't have details for '" ++ text ++ "'. Options: " ++
      optionsStrDisplay cfg ++ ".")

/-- Python rendering of the session's `current_country` in an f-string:
the key always exists (`setdefault`), so the `.get` default is dead and a
`None` value prints as "None". -/
def pyNoneStr : Option String → String
  | some s => s
  | none => "None"

/-- streamlit_app.py line 353. -/
def visaHeader (disp : String) : String :=
  "**For " ++ disp ++ " — here are the requirements:**\n"

/-- streamlit_app.py line 354: the general-requirements section, empty
when the `general` entry is absent or its `response` is absent/empty. -/
def generalSection (cfg : Config) : String :=
  match cfg.visa_types.lookup "general" with
  | some g => if truthyStr g.response then "##### General requirements\n" ++ g.response.getD "" else ""
  | none => ""

/-- streamlit_app.py line 355: the specific visa-type section, empty when
the entry's `response` is absent/empty. -/
def specificSection (k : String) (e : VEntry) : String :=
  if truthyStr e.response then "\n\n##### " ++ pretty k ++ " visa\n" ++ e.response.getD ""
  else ""

/-- streamlit_app.py lines 352-356: the composed requirements reply. -/
def detailsReply (cfg : Config) (currentOpt : Option String) (k : String) (e : VEntry) : String :=
  let disp := pyNoneStr currentOpt
  let g := generalSection cfg
  let sp := specificSection k e
  if g.isEmpty && sp.isEmpty then "For " ++ disp ++ ", no details available."
  else visaHeader disp ++ g ++ sp

/-- streamlit_app.py lines 266 and 307: `key if key in country_map else
match_country(text, country_map)` with `key = text.lower()`. -/
def foundCountry (cfg : Config) (text : String) : Option String :=
  let key := pyLower text
  if (cfg.country_map.lookup key).isSome then some key
  else match_country text cfg.country_map

/-- The shared country-found branch (streamlit_app.py lines 268-293,
duplicated verbatim at lines 318-343): record the country, then answer
visa-free (state END) or ask for a visa type (state ASK_VISA_TYPE).
`found` is always a key of `country_map`, so the `lookup` below is the
model of the source's `country_map[found]` indexing. -/
def countryFoundStep (cfg : Config) (sess : Session) (found : String) : String × Session :=
  let disp := pyTitle found
  let sess1 := { sess with current_country := some disp
                           countries_asked := sess.countries_asked ++ [found] }
  if cfg.country_map.lookup found = some false then
    (visaFreeReply cfg disp,
      { sess1 with visa_free_count := sess1.visa_free_count + 1, state := BotState.END })
  else
    (askVisaReply cfg disp,
      { sess1 with visa_required_count := sess1.visa_required_count + 1,
                   state := BotState.ASK_VISA_TYPE })

/-- streamlit_app.py lines 242-367: the typed-input message handler, as a
pure step function from a session and one (already stripped, non-empty)
utterance to the bot's reply and the new session. -/
def handle (cfg : Config) (sess : Session) (text : String) : String × Session :=
  if is_thanks text then
    (thanksReply, { sess with state := BotState.END })
  else if is_farewell text then
    (cfg.prompts.goodbye, { sess with state := BotState.END })
  else if sess.state = BotState.ASK_COUNTRY ∨ sess.state = BotState.END then
    if is_greeting text then
      (cfg.prompts.ask_country, { sess with state := BotState.ASK_COUNTRY })
    else
      match foundCountry cfg text with
      | some found => countryFoundStep cfg sess found
      | none => (fallbackCountryReply cfg, { sess with state := BotState.ASK_COUNTRY })
  else
    match foundCountry cfg text with
    | some new_found =>
      let current_disp := sess.current_country.getD ""
      if canon new_found = canon current_disp then
        (nudgeReply cfg current_disp, sess)
      else countryFoundStep cfg sess new_found
    | none =>
      match resolve_visa_type text cfg.visa_types cfg.display_options with
      | some k =>
        (match cfg.visa_types.lookup k with
         | some e => (detailsReply cfg sess.current_country k e, { sess with state := BotState.END })
         | none => (fallbackVisaReply cfg text, sess))
      | none => (fallbackVisaReply cfg text, sess)

/-- The web sessions reachable from a fresh reset by processing typed
utterances. -/
inductive Reachable (cfg : Config) : Session → Prop where
  | base : Reachable cfg reset_chat
  | step (s : Session) (t : String) : Reachable cfg s → Reachable cfg (handle cfg s t).2

def samplePrompts : Prompts :=
  { welcome := "Welcome!"
    ask_country := "Please tell me which country you're from."
    goodbye := "Thank you—hope I helped. Goodbye!"
    ask_visa_type := none
    fallback_country := none
    fallback_visa_type := none
    visa_free_msg := none }

def sampleCfg : Config :=
  { prompts := samplePrompts
    country_map := [( "ghana", false), ( "iran", true)]
    visa_types := [( "general", ⟨some "Valid passport."⟩),
                   ( "tourist", ⟨some "Tourist letter."⟩),
                   ( "visaonarrival", ⟨some "Approval letter."⟩)]
    display_options := [ "Tourist", "Visa on Arrival"] }

/-- The CLI's loaded configuration (interface.py lines 17-35): every
prompt is read with `.get` (all optional); `visa_types` keeps the
original key casing; `visa_type_map` and `opts` are derived below. -/
structure CLIConfig where
  goodbye : Option String
  ask_country : Option String
  ask_visa_type : Option String
  fallback_country : Option String
  fallback_visa_type : Option String
  ask_more : Option String
  visa_type_options : Option (List String)
  country_map : List (String × Bool)
  visa_types : List (String × VEntry)
deriving DecidableEq, Repr

/-- interface.py line 33: the display list, joined with ", ". -/
def cliOpts (cfg : CLIConfig) : String :=
  String.intercalate ", " (cfg.visa_type_options.getD (cfg.visa_types.map (fun p => p.1)))

/-- interface.py line 31: lower-cased lookup map for visa types. -/
def cliVisaTypeMap (cfg : CLIConfig) : List (String × VEntry) :=
  cfg.visa_types.map (fun p => (pyLower p.1, p.2))

/-- interface.py goodbye text (lines 42 and 81 use the same default). -/
def cliGoodbye (cfg : CLIConfig) : String :=
  cfg.goodbye.getD "Thank you—hope I helped. Goodbye!"

/-- interface.py lines 37-84: `ChatCLI.respond`, as a pure function from
the current state and the raw user input to the reply and the new state.
The result is `none` exactly on the one path where the source raises an
uncaught `KeyError`: a visa-type entry matched in `ASK_VISA_TYPE` whose
record lacks the `response` field (line 70 indexes `details['response']`
without a guard; the source also mutates `self.state` to `END` before
raising, which the `none` result subsumes because the exception aborts
the REPL loop).  The final `fallback_country` return of line 84 is
unreachable because `BotState` has exactly the three handled states. -/
def respond (cfg : CLIConfig) (st : BotState) (user_input : String) : Option (String × BotState) :=
  let text := pyStrip user_input
  let key := pyLower text
  if is_farewell text then some (cliGoodbye cfg, st)
  else if st = BotState.ASK_COUNTRY then
    match cfg.country_map.lookup key with
    | some req =>
      if req = false then
        some ( "Excellent, you do not need a visa to visit Nigeria. " ++ cfg.ask_more.getD "",
          BotState.END)
      else
        some (cfg.ask_visa_type.getD
            ( "Great! You need a visa to visit Nigeria. Which visa type are you interested in? (" ++
              cliOpts cfg ++ ")"),
          BotState.ASK_VISA_TYPE)
    | none =>
      some (cfg.fallback_country.getD "Sorry, I didn't recognize that country. Please try again.", st)
  else if st = BotState.ASK_VISA_TYPE then
    if isInfixL ("option".data) key.data then
      some ( "Available visa types: " ++ cliOpts cfg, st)
    else
      match (cliVisaTypeMap cfg).lookup key with
      | some d =>
        (match d.response with
         | some r => some (r ++ "\n" ++ cfg.ask_more.getD "", BotState.END)
         | none => none)
      | none =>
        some (cfg.fallback_visa_type.getD
            ( "Sorry, I don't have details for '" ++ text ++ "'. Options: " ++ cliOpts cfg ++ "."),
          BotState.END)
  else
    if is_affirmative text then
      some (cfg.ask_country.getD "Please tell me which country you're from.", BotState.ASK_COUNTRY)
    else
      some (cliGoodbye cfg, st)

def sampleCLICfg : CLIConfig :=
  { goodbye := none
    ask_country := none
    ask_visa_type := none
    fallback_country := none
    fallback_visa_type := none
    ask_more := none
    visa_type_options := none
    country_map := [( "ghana", false), ( "iran", true)]
    visa_types := [( "Tourist", ⟨some "Tourist letter."⟩)] }

theorem findKeyHit_eq_find? (vt : String) (l : List (String × VEntry)) :
    findKeyHit vt l = (l.find? (fun kv => keyHitPred vt kv.1)).map (fun kv => kv.1) := by
  induction l with
  | nil => rfl
  | cons p rest ih =>
    obtain ⟨k, v⟩ := p
    by_cases h : keyHitPred vt k
    · simp [findKeyHit, List.find?_cons_of_pos, h]
    · simp only [findKeyHit, if_neg h]
      rw [List.find?_cons_of_neg _ (by simpa using h)]
      exact ih

theorem findDispHit_eq_find? (vt : String) (l : List String) :
    findDispHit vt l = (l.find? (fun d => dispHitPred vt (canon d))).map canon := by
  induction l with
  | nil => rfl
  | cons d rest ih =>
    by_cases h : dispHitPred vt (canon d)
    · simp [findDispHit, List.find?_cons_of_pos, h]
    · simp only [findDispHit, if_neg h]
      rw [List.find?_cons_of_neg _ (by simpa using h)]
      exact ih

/-- C3 (counterexample): the spec's resolution ladder and the code's
disagree at the input "tour" against the single key "tourist": the spec's
step 2 ("the canonicalized input ... is contained-in a known key")
returns "tourist", while the code tests the opposite containment
(`k in vt`) and finds no match. -/
theorem C3_counterexample :
    resolve_visa_type "tour" [( "tourist", ⟨some "T"⟩)] [] = none ∧
    resolve_visa_type_spec "tour" [( "tourist", ⟨some "T"⟩)] [] = some "tourist" := by
  constructor <;> rfl

/-- C3 (amended): `resolve_visa_type` applies, in order: (1) return the
canonicalized input if it is a known key; (2) else the first key, in
mapping order, such that the canonicalized input starts with that key or
that key is contained in the input; (3) else likewise against
canonicalized display labels (also accepting exact equality); (4) else no
match — the result is the first hit in mapping iteration order, stated
here through `List.find?`. -/
theorem C3_resolve_first_hit (t : String) (vts : List (String × VEntry)) (disp : List String) :
    resolve_visa_type t vts disp =
      (if (vts.lookup (canon t)).isSome then some (canon t)
       else
         match vts.find? (fun kv => keyHitPred (canon t) kv.1) with
         | some kv => some kv.1
         | none => (disp.find? (fun d => dispHitPred (canon t) (canon d))).map canon) := by
  unfold resolve_visa_type
  by_cases h : (vts.lookup (canon t)).isSome
  · simp [h]
  · simp only [if_neg h]
    rw [findKeyHit_eq_find?, findDispHit_eq_find?]
    cases vts.find? (fun kv => keyHitPred (canon t) kv.1) <;> rfl

/-- C8: visa-type resolution is insensitive to case and to
space/underscore/hyphen separators — the resolver depends on its input
only through `canon` — and in particular "Visa On Arrival",
"visa-on-arrival" and "visaonarrival" all resolve to the same canonical
key on a configuration that carries it. -/
theorem C8_resolve_canon_insensitive :
    (∀ (a b : String) (vts : List (String × VEntry)) (disp : List String),
        canon a = canon b → resolve_visa_type a vts disp = resolve_visa_type b vts disp) ∧
    (resolve_visa_type "Visa On Arrival" sampleCfg.visa_types sampleCfg.display_options =
        some "visaonarrival" ∧
      resolve_visa_type "visa-on-arrival" sampleCfg.visa_types sampleCfg.display_options =
        some "visaonarrival" ∧
      resolve_visa_type "visaonarrival" sampleCfg.visa_types sampleCfg.display_options =
        some "visaonarrival") := by
  constructor
  · intro a b vts disp h
    unfold resolve_visa_type
    rw [h]
  · exact ⟨by decide, by decide, by decide⟩

/-- C8 (witness): the canon-equal spellings "Visa On Arrival" and
"visa-on-arrival" get the same resolution on the sample configuration. -/
theorem C8_witness :
    canon "Visa On Arrival" = canon "visa-on-arrival" ∧
    resolve_visa_type "Visa On Arrival" sampleCfg.visa_types sampleCfg.display_options =
      resolve_visa_type "visa-on-arrival" sampleCfg.visa_types sampleCfg.display_options :=
  ⟨by decide,
    C8_resolve_canon_insensitive.1 "Visa On Arrival" "visa-on-arrival"
      sampleCfg.visa_types sampleCfg.display_options (by decide)⟩

/-- C1: in state ASK_COUNTRY, an utterance that passes the global
thanks/farewell checks and the greeting check and matches a configured
country `found` yields the visa-free reply with final state END when
`visa_required` is false, and the ask-visa-type reply (which interpolates
the options list) with state ASK_VISA_TYPE when it is true. -/
theorem C1_country_check (cfg : Config) (sess : Session) (text found : String) (req : Bool)
    (hstate : sess.state = BotState.ASK_COUNTRY)
    (hth : is_thanks text = false) (hfw : is_farewell text = false)
    (hgr : is_greeting text = false)
    (hfound : foundCountry cfg text = some found)
    (hreq : cfg.country_map.lookup found = some req) :
    handle cfg sess text =
      (if req then
        (askVisaReply cfg (pyTitle found),
          { sess with current_country := some (pyTitle found)
                      countries_asked := sess.countries_asked ++ [found]
                      visa_required_count := sess.visa_required_count + 1
                      state := BotState.ASK_VISA_TYPE })
      else
        (visaFreeReply cfg (pyTitle found),
          { sess with current_country := some (pyTitle found)
                      countries_asked := sess.countries_asked ++ [found]
                      visa_free_count := sess.visa_free_count + 1
                      state := BotState.END })) := by
  simp only [handle, hth, hfw, hstate, hgr, hfound, Bool.false_eq_true, if_false, if_pos (Or.inl rfl)]
  cases req <;> simp [countryFoundStep, hreq]

/-- C1 (witness): from a fresh session, "iran" (visa required in the
sample configuration) gets the ask-visa-type reply and state
ASK_VISA_TYPE. -/
theorem C1_witness :
    handle sampleCfg reset_chat "iran" =
      (askVisaReply sampleCfg (pyTitle "iran"),
        { reset_chat with current_country := some (pyTitle "iran")
                          countries_asked := [ "iran"]
                          visa_required_count := 1
                          state := BotState.ASK_VISA_TYPE }) :=
  C1_country_check sampleCfg reset_chat "iran" "iran" true rfl (by decide) (by decide)
    (by decide) (by decide) (by decide)

/-- C2 (counterexample): "thanks, goodbye" matches the farewell pattern,
but the handler's thanks check fires first, so the reply is the fixed
thanks acknowledgement and not the configured goodbye text. -/
theorem C2_counterexample :
    is_farewell "thanks, goodbye" = true ∧
    (handle sampleCfg reset_chat "thanks, goodbye").1 = thanksReply ∧
    thanksReply ≠ sampleCfg.prompts.goodbye := by
  refine ⟨by decide, rfl, by decide⟩

/-- C2 (amended): every utterance matching the farewell pattern and NOT
matching the thanks pattern (which the handler checks first) yields, in
every state, the configured goodbye text with new state END. -/
theorem C2_farewell_global (cfg : Config) (sess : Session) (text : String)
    (hth : is_thanks text = false) (hfw : is_farewell text = true) :
    handle cfg sess text = (cfg.prompts.goodbye, { sess with state := BotState.END }) := by
  simp [handle, hth, hfw]

/-- C2 (witness): "bye" from a fresh session yields the goodbye text and
state END. -/
theorem C2_witness :
    handle sampleCfg reset_chat "bye" =
      (sampleCfg.prompts.goodbye, { reset_chat with state := BotState.END }) :=
  C2_farewell_global sampleCfg reset_chat "bye" (by decide) (by decide)

/-- The sample session used by the ASK_VISA_TYPE witnesses: the state the
web app reaches right after asking Iran's visa type. -/
def vtSess : Session :=
  { state := BotState.ASK_VISA_TYPE
    current_country := some "Iran"
    countries_asked := [ "iran"]
    visa_required_count := 1
    visa_free_count := 0 }

/-- C4: in state ASK_VISA_TYPE with a current country set, an utterance
that passes the global checks and re-matches the same country (same
canonical form) returns the "already discussing" nudge and leaves the
whole session — state and current country included — unchanged. -/
theorem C4_same_country_nudge (cfg : Config) (sess : Session) (text found d : String)
    (hstate : sess.state = BotState.ASK_VISA_TYPE)
    (hth : is_thanks text = false) (hfw : is_farewell text = false)
    (hcur : sess.current_country = some d)
    (hfound : foundCountry cfg text = some found)
    (hsame : canon found = canon d) :
    handle cfg sess text = (nudgeReply cfg d, sess) := by
  simp [handle, hth, hfw, hstate, hfound, hcur, hsame]

/-- C4 (witness): re-submitting "iran" while already discussing Iran
returns the nudge and changes nothing. -/
theorem C4_witness :
    handle sampleCfg vtSess "iran" = (nudgeReply sampleCfg "Iran", vtSess) :=
  C4_same_country_nudge sampleCfg vtSess "iran" "iran" "Iran" rfl (by decide) (by decide) rfl
    (by decide) (by decide)

/-- C5: in state ASK_VISA_TYPE, an utterance that passes the global
checks, matches no country, and resolves to no visa-type entry gets the
fallback_visa_type reply with the session (state included) unchanged. -/
theorem C5_unknown_visa_type (cfg : Config) (sess : Session) (text : String)
    (hstate : sess.state = BotState.ASK_VISA_TYPE)
    (hth : is_thanks text = false) (hfw : is_farewell text = false)
    (hnc : foundCountry cfg text = none)
    (hnv : (resolve_visa_type text cfg.visa_types cfg.display_options).bind
        (fun k => cfg.visa_types.lookup k) = none) :
    handle cfg sess text = (fallbackVisaReply cfg text, sess) := by
  simp only [handle, hth, hfw, hstate, Bool.false_eq_true, if_false, hnc]
  cases hk : resolve_visa_type text cfg.visa_types cfg.display_options with
  | none => simp
  | some k =>
    rw [hk] at hnv
    have hnv2 : cfg.visa_types.lookup k = none := by simpa using hnv
    simp [hnv2]

/-- C5 (witness): "zzz" while discussing Iran gets the fallback reply and
leaves the session unchanged. -/
theorem C5_witness :
    handle sampleCfg vtSess "zzz" = (fallbackVisaReply sampleCfg "zzz", vtSess) :=
  C5_unknown_visa_type sampleCfg vtSess "zzz" rfl (by decide) (by decide) (by decide) (by decide)

/-- C6: the per-utterance step is a total Lean function by construction
(every input in every state produces one reply and one next state); this
theorem proves the claim's substantive clause: when the matched visa-type
entry's `response` field is absent (or empty, which Python truthiness
treats the same), the composed reply omits the specific section — it is
the header plus the general section, or the "no details available" text
when the general section is empty too — instead of failing. -/
theorem C6_missing_response_degrades (cfg : Config) (sess : Session) (text k : String)
    (e : VEntry)
    (hstate : sess.state = BotState.ASK_VISA_TYPE)
    (hth : is_thanks text = false) (hfw : is_farewell text = false)
    (hnc : foundCountry cfg text = none)
    (hres : resolve_visa_type text cfg.visa_types cfg.display_options = some k)
    (hlk : cfg.visa_types.lookup k = some e)
    (hmiss : truthyStr e.response = false) :
    handle cfg sess text =
      ((if (generalSection cfg).isEmpty then
          "For " ++ pyNoneStr sess.current_country ++ ", no details available."
        else visaHeader (pyNoneStr sess.current_country) ++ generalSection cfg),
        { sess with state := BotState.END }) := by
  simp only [handle, hth, hfw, hstate, Bool.false_eq_true, if_false, hnc, hres, hlk]
  have hsp : specificSection k e = "" := by
    simp [specificSection, hmiss]
  simp only [detailsReply, hsp]
  have he : String.isEmpty "" = true := rfl
  by_cases hg : (generalSection cfg).isEmpty
  · simp [hg, he]
  · simp [hg, he, String.append_empty]

def sampleCfgNoResp : Config :=
  { prompts := samplePrompts
    country_map := [( "ghana", false), ( "iran", true)]
    visa_types := [( "general", ⟨some "Valid passport."⟩), ( "tourist", ⟨none⟩)]
    display_options := [ "Tourist"] }

/-- C6 (witness): choosing "tourist" while discussing Iran, on a
configuration whose tourist entry has no `response` field, yields the
header plus the general section only, with state END. -/
theorem C6_witness :
    handle sampleCfgNoResp vtSess "tourist" =
      ((if (generalSection sampleCfgNoResp).isEmpty then
          "For " ++ pyNoneStr vtSess.current_country ++ ", no details available."
        else visaHeader (pyNoneStr vtSess.current_country) ++ generalSection sampleCfgNoResp),
        { vtSess with state := BotState.END }) :=
  C6_missing_response_degrades sampleCfgNoResp vtSess "tourist" "tourist" ⟨none⟩ rfl
    (by decide) (by decide) (by decide) (by decide) (by decide) (by decide)

/-- C7: the CLI in state END (after the global farewell check did not
fire) answers an affirmative input with the ask_country prompt and moves
to ASK_COUNTRY, and answers every other input with the goodbye text,
staying in END. -/
theorem C7_end_state_cli (cfg : CLIConfig) (input : String)
    (hfw : is_farewell (pyStrip input) = false) :
    (is_affirmative (pyStrip input) = true →
      respond cfg BotState.END input =
        some (cfg.ask_country.getD "Please tell me which country you're from.",
          BotState.ASK_COUNTRY)) ∧
    (is_affirmative (pyStrip input) = false →
      respond cfg BotState.END input = some (cliGoodbye cfg, BotState.END)) := by
  constructor <;> intro h <;> simp [respond, hfw, h]

/-- C7 (witness): "yes" in state END yields the ask_country prompt and
state ASK_COUNTRY. -/
theorem C7_witness :
    respond sampleCLICfg BotState.END "yes" =
      some (sampleCLICfg.ask_country.getD "Please tell me which country you're from.",
        BotState.ASK_COUNTRY) :=
  (C7_end_state_cli sampleCLICfg "yes" (by decide)).1 (by decide)

/-- C10: in the CLI's ASK_VISA_TYPE state, an input whose lower-cased
form contains the substring "option" (and which is not a farewell, the
one check that precedes it) is answered with the available-visa-types
list and leaves the state unchanged — for every visa-type mapping, so no
visa-type lookup influences the result. -/
theorem C10_cli_options (cfg : CLIConfig) (st : BotState) (input : String)
    (hstate : st = BotState.ASK_VISA_TYPE)
    (hfw : is_farewell (pyStrip input) = false)
    (hopt : isInfixL ("option".data) (pyLower (pyStrip input)).data = true) :
    respond cfg st input = some ( "Available visa types: " ++ cliOpts cfg, st) := by
  subst hstate
  simp [respond, hfw, hopt]

/-- C10 (witness): "options please" in ASK_VISA_TYPE returns the options
list and stays in ASK_VISA_TYPE. -/
theorem C10_witness :
    respond sampleCLICfg BotState.ASK_VISA_TYPE "options please" =
      some ( "Available visa types: " ++ cliOpts sampleCLICfg, BotState.ASK_VISA_TYPE) :=
  C10_cli_options sampleCLICfg BotState.ASK_VISA_TYPE "options please" rfl (by decide) (by decide)

theorem lookup_mem {β : Type} (a : String) :
    ∀ (l : List (String × β)) (b : β), List.lookup a l = some b → (a, b) ∈ l := by
  intro l
  induction l with
  | nil => intro b h; simp [List.lookup] at h
  | cons p rest ih =>
    intro b h
    obtain ⟨k, v⟩ := p
    rw [List.lookup] at h
    by_cases hb : (a == k) = true
    · rw [hb] at h
      simp only [Option.some.injEq] at h
      rw [eq_of_beq hb, h]
      exact List.mem_cons_self _ _
    · rw [Bool.not_eq_true] at hb
      rw [hb] at h
      exact List.mem_cons_of_mem _ (ih b h)

theorem match_country_mem (text : String) (countries : List (String × Bool)) (c : String)
    (h : match_country text countries = some c) : ∃ b, (c, b) ∈ countries := by
  unfold match_country at h
  simp only [Option.map_eq_some'] at h
  obtain ⟨p, hp, hc⟩ := h
  exact ⟨p.2, by rw [← hc]; exact List.mem_of_find?_eq_some hp⟩

theorem foundCountry_mem (cfg : Config) (text c : String)
    (h : foundCountry cfg text = some c) : ∃ b, (c, b) ∈ cfg.country_map := by
  simp only [foundCountry] at h
  by_cases hl : (cfg.country_map.lookup (pyLower text)).isSome
  · rw [if_pos hl] at h
    simp only [Option.some.injEq] at h
    obtain ⟨b, hb⟩ := Option.isSome_iff_exists.mp hl
    exact ⟨b, by rw [← h]; exact lookup_mem _ _ _ hb⟩
  · rw [if_neg hl] at h
    exact match_country_mem text cfg.country_map c h

theorem titleData_length (l : List Char) (b : Bool) : (titleData l b).length = l.length := by
  induction l generalizing b with
  | nil => rfl
  | cons c rest ih => simp [titleData, ih]

theorem pyTitle_ne_empty (s : String) (h : s ≠ "") : pyTitle s ≠ "" := by
  intro hc
  apply h
  apply String.ext
  have hlen : (pyTitle s).data.length = s.data.length := titleData_length s.data false
  rw [hc] at hlen
  have hz : s.data.length = 0 := by simpa using hlen.symm
  simpa using List.eq_nil_of_length_eq_zero hz

theorem countryFoundStep_current (cfg : Config) (sess : Session) (found : String) :
    (countryFoundStep cfg sess found).2.current_country = some (pyTitle found) := by
  unfold countryFoundStep
  split <;> rfl

/-- The C9 invariant: a session in state ASK_VISA_TYPE has a non-empty
current country. -/
def hasCountryInv (sess : Session) : Prop :=
  sess.state = BotState.ASK_VISA_TYPE → ∃ d, sess.current_country = some d ∧ d ≠ ""

theorem countryFoundStep_inv (cfg : Config) (sess : Session) (found : String)
    (hf : found ≠ "") : hasCountryInv (countryFoundStep cfg sess found).2 := by
  intro _
  exact ⟨pyTitle found, countryFoundStep_current cfg sess found, pyTitle_ne_empty found hf⟩

theorem handle_preserves_inv (cfg : Config)
    (hne : ∀ p ∈ cfg.country_map, p.1 ≠ "")
    (sess : Session) (t : String) (ih : hasCountryInv sess) :
    hasCountryInv (handle cfg sess t).2 := by
  have hfc : ∀ c, foundCountry cfg t = some c → c ≠ "" := by
    intro c hc
    obtain ⟨b, hb⟩ := foundCountry_mem cfg t c hc
    exact hne (c, b) hb
  by_cases h1 : is_thanks t
  · simp [handle, h1, hasCountryInv]
  by_cases h2 : is_farewell t
  · simp [handle, h1, h2, hasCountryInv]
  by_cases h3 : sess.state = BotState.ASK_COUNTRY ∨ sess.state = BotState.END
  · by_cases h4 : is_greeting t
    · simp [handle, h1, h2, h3, h4, hasCountryInv]
    · cases hf : foundCountry cfg t with
      | none => simp [handle, h1, h2, h3, h4, hf, hasCountryInv]
      | some found =>
        have heq : handle cfg sess t = countryFoundStep cfg sess found := by
          simp [handle, h1, h2, h3, h4, hf]
        rw [heq]
        exact countryFoundStep_inv cfg sess found (hfc found hf)
  · cases hf : foundCountry cfg t with
    | some found =>
      by_cases hsame : canon found = canon (sess.current_country.getD "")
      · have heq : handle cfg sess t = (nudgeReply cfg (sess.current_country.getD ""), sess) := by
          simp [handle, h1, h2, h3, hf, hsame]
        rw [heq]
        exact ih
      · have heq : handle cfg sess t = countryFoundStep cfg sess found := by
          simp [handle, h1, h2, h3, hf, hsame]
        rw [heq]
        exact countryFoundStep_inv cfg sess found (hfc found hf)
    | none =>
      cases hr : resolve_visa_type t cfg.visa_types cfg.display_options with
      | none =>
        have heq : handle cfg sess t = (fallbackVisaReply cfg t, sess) := by
          simp [handle, h1, h2, h3, hf, hr]
        rw [heq]
        exact ih
      | some k =>
        cases hk : cfg.visa_types.lookup k with
        | none =>
          have heq : handle cfg sess t = (fallbackVisaReply cfg t, sess) := by
            simp [handle, h1, h2, h3, hf, hr, hk]
          rw [heq]
          exact ih
        | some e =>
          have hend : (handle cfg sess t).2.state = BotState.END := by
            simp [handle, h1, h2, h3, hf, hr, hk]
          intro hst
          rw [hst] at hend
          exact absurd hend (by simp)

/-- C9: in every web-app session reachable from a fresh reset by
processing typed utterances (over any configuration whose country names
are non-empty), state ASK_VISA_TYPE implies the current country is set
and non-empty: every step that enters ASK_VISA_TYPE has just assigned the
matched country's display form, and every step that stays there leaves
the existing one in place. -/
theorem C9_vt_state_has_country (cfg : Config)
    (hne : ∀ p ∈ cfg.country_map, p.1 ≠ "") (sess : Session)
    (hr : Reachable cfg sess) :
    sess.state = BotState.ASK_VISA_TYPE → ∃ d, sess.current_country = some d ∧ d ≠ "" := by
  induction hr with
  | base => intro h; simp [reset_chat] at h
  | step s t hs ihr => exact handle_preserves_inv cfg hne s t ihr

/-- C9 (witness): the session reached by submitting "iran" from a fresh
reset is in ASK_VISA_TYPE and indeed carries a non-empty country. -/
theorem C9_witness :
    (∀ p ∈ sampleCfg.country_map, p.1 ≠ "") ∧
    ∃ d, (handle sampleCfg reset_chat "iran").2.current_country = some d ∧ d ≠ "" :=
  ⟨by decide,
    C9_vt_state_has_country sampleCfg (by decide) (handle sampleCfg reset_chat "iran").2
      (Reachable.step reset_chat "iran" Reachable.base) (by decide)⟩
